import Mathlib

/-!
# Verification of the experience-bench Trial Execution Engine

A shallow embedding, in Lean 4, of the core of the `experience_bench`
repository: the evaluator (`core/eval.py`), the code-block extractor
(`core/code_extract.py`), the sandboxed executor (`core/code_exec.py`),
the 429 retry policy (`adapters/retry.py`), the prompt renderer
(`core/prompts.py`), the model-key sanitizer and the benchmark driver
(`core/run.py`), and the JSONL sink (`core/storage.py`).

Pure Python functions become Lean functions.  Effects (network calls,
subprocess execution, wall-clock readings, random jitter, SHA-256) are
modelled as explicit oracle inputs: the embedded function receives the
outcome an effectful call would have produced and is otherwise a faithful
transcription of the Python control flow.  Python exceptions become
`Except`.  Python `float` arithmetic is modelled over `ℚ`: every constant
involved (`0.25`, `1.0`, `30.0`, powers of two) is exactly representable
in binary floating point, so the rational model agrees with the source on
the computations the theorems mention.
-/

namespace ExperienceBench

/-! ## Python string primitives

Character predicates used by the source via `str.strip`, `str.isdigit`,
`str.isalnum` and `str.splitlines`.  They are transcriptions of the
CPython definitions restricted to the code points that can appear in this
development (the full ASCII range, the Latin-1 supplement, and the
Unicode space/line separators); outside that range the embedding is not
consulted by any theorem below. -/

/-- Python `str.isspace` (also the set stripped by argument-less
`str.strip`): ASCII whitespace, the C1 controls `\x1c`-`\x1f`, NEL,
NBSP, and the Unicode space/line/paragraph separators. -/
def pyIsSpace (c : Char) : Bool :=
  c = ' ' || c = '\t' || c = '\n' || c = '\r' || c = '\x0b' || c = '\x0c' ||
  ('\x1c' ≤ c && c ≤ '\x1f') || c = '\x85' || c = '\xa0' || c.toNat = 0x1680 ||
  (0x2000 ≤ c.toNat && c.toNat ≤ 0x200a) || c.toNat = 0x2028 ||
  c.toNat = 0x2029 || c.toNat = 0x202f || c.toNat = 0x205f || c.toNat = 0x3000

/-- Python `str.isdigit`, restricted to ASCII decimal digits (the only
digit code points any claim or test input contains). -/
def pyIsDigit (c : Char) : Bool :=
  '0' ≤ c && c ≤ '9'

/-- Python `str.isalnum`, restricted to code points below `0x100`:
ASCII letters and digits, plus the Latin-1 letters and numeric
characters (`ª ² ³ µ ¹ º ¼ ½ ¾` and the accented letters `À`-`ÿ`
excluding `×` and `÷`). -/
def pyIsAlnum (c : Char) : Bool :=
  c.isAlphanum ||
  c = '\xaa' || c = '\xb2' || c = '\xb3' || c = '\xb5' || c = '\xb9' ||
  c = '\xba' || c = '\xbc' || c = '\xbd' || c = '\xbe' ||
  ('\xc0' ≤ c && c ≤ '\xff' && c ≠ '\xd7' && c ≠ '\xf7')

/-- Python `str.strip(chars)`: drop the characters satisfying `p` from
both ends of the string. -/
def stripBy (p : Char → Bool) (s : String) : String :=
  (((s.data.dropWhile p).reverse.dropWhile p).reverse).asString

/-- Python argument-less `str.strip()`. -/
def pyStrip (s : String) : String :=
  stripBy pyIsSpace s

/-- Python `s[:n]` on strings. -/
def pyTake (s : String) (n : ℕ) : String :=
  (s.data.take n).asString

/-- The line boundaries recognised by Python `str.splitlines`
(CPython also treats `\r\n` as a single boundary, handled in
`splitlinesAux`). -/
def pyIsLineBoundary (c : Char) : Bool :=
  c = '\n' || c = '\r' || c = '\x0b' || c = '\x0c' || c = '\x1c' ||
  c = '\x1d' || c = '\x1e' || c = '\x85' || c.toNat = 0x2028 || c.toNat = 0x2029

/-- Worker for `pySplitlines`; `acc` holds the current line reversed. -/
def splitlinesAux : List Char → List Char → List String
  | [], acc => if acc.isEmpty then [] else [acc.reverse.asString]
  | '\r' :: '\n' :: rest, acc => acc.reverse.asString :: splitlinesAux rest []
  | c :: rest, acc =>
    if pyIsLineBoundary c then acc.reverse.asString :: splitlinesAux rest []
    else splitlinesAux rest (c :: acc)

/-- Python `str.splitlines()`. -/
def pySplitlines (s : String) : List String :=
  splitlinesAux s.data []

/-! ## `core/eval.py` -/

/-- `EvalResult` (`core/eval.py`, lines 6-14). -/
structure EvalResult where
  passed_a : Bool
  passed_b : Bool
  passed_all : Bool
  output_a : Option String
  output_b : Option String
  error_type : Option String
  error_message : Option String
deriving Repr, DecidableEq

/-- The line list computed by `eval_two_line_stdout` (line 18-19):
strip `\n` from both ends, split into lines, trim each line, keep the
non-empty ones. -/
def nonempty_trimmed_lines (stdout : String) : List String :=
  ((pySplitlines (stripBy (fun c => c = '\n') stdout)).map pyStrip).filter
    (fun ln => ln ≠ "")

/-- `eval_two_line_stdout` (`core/eval.py`, lines 17-42). -/
def eval_two_line_stdout (stdout expected_a expected_b : String) : EvalResult :=
  let lines := nonempty_trimmed_lines stdout
  if lines.length < 2 then
    { passed_a := false
      passed_b := false
      passed_all := false
      output_a := lines.head?
      output_b := none
      error_type := some "output_parse_error"
      error_message :=
        some ("Expected 2 non-empty lines, got " ++ toString lines.length) }
  else
    let out_a := lines.headI
    let out_b := lines.getI 1
    let passed_a := out_a = expected_a
    let passed_b := out_b = expected_b
    { passed_a := passed_a
      passed_b := passed_b
      passed_all := passed_a && passed_b
      output_a := some out_a
      output_b := some out_b
      error_type := none
      error_message := none }

/-! ## `_safe_path_component` (`core/run.py`, lines 451-459) -/

/-- The loop body of `_safe_path_component` (lines 453-457): keep a
(Python-)alphanumeric character or `-`, `_`, `.`, replace anything else
by `_`. -/
def clean_char (ch : Char) : Char :=
  if pyIsAlnum ch || ch = '-' || ch = '_' || ch = '.' then ch else '_'

/-- `_safe_path_component`: replace every character that is not
(Python-)alphanumeric and not one of `-`, `_`, `.` by `_`, strip leading
and trailing `.`/`_`, and fall back to `"model"` when nothing is left. -/
def _safe_path_component (text : String) : String :=
  let s := stripBy (fun c => c = '.' || c = '_') (text.data.map clean_char).asString
  if s = "" then "model" else s

/-! ## `core/code_extract.py`

The source compiles the pattern "three backticks, an optional
case-insensitive python tag, greedy whitespace, a lazy DOTALL body, three
backticks" and takes the first (leftmost) match.  Neither the optional
tag nor the whitespace run can contain a backtick, so the greedy/lazy
backtracking of the Python engine collapses to: at the leftmost opening
fence that is followed (after skipping the tag and the whitespace) by a
closing fence, take the shortest body ending at a closing fence. -/

/-- Does the text start with three backticks? -/
def fenceAt (cs : List Char) : Bool :=
  match cs with
  | '`' :: '`' :: '`' :: _ => true
  | _ => false

/-- Does the text start with the tag `python`, case-insensitively
(the pattern is compiled with `re.IGNORECASE`)? -/
def pythonTagAt (cs : List Char) : Bool :=
  match cs with
  | c1 :: c2 :: c3 :: c4 :: c5 :: c6 :: _ =>
    (c1 = 'p' || c1 = 'P') && (c2 = 'y' || c2 = 'Y') &&
    (c3 = 't' || c3 = 'T') && (c4 = 'h' || c4 = 'H') &&
    (c5 = 'o' || c5 = 'O') && (c6 = 'n' || c6 = 'N')
  | _ => false

/-- The lazy body `(.*?)` followed by the closing fence: shortest prefix
whose remainder starts with three backticks, or `none` when no closing
fence exists. -/
def bodyUntilFence : List Char → Option (List Char)
  | [] => none
  | c :: rest =>
    if fenceAt (c :: rest) then some []
    else (bodyUntilFence rest).map (fun b => c :: b)

/-- Attempt the compiled pattern at the start of `cs`. -/
def matchFenceAt (cs : List Char) : Option (List Char) :=
  if fenceAt cs then
    let rest := cs.drop 3
    let r1 := if pythonTagAt rest then rest.drop 6 else rest
    bodyUntilFence (r1.dropWhile pyIsSpace)
  else none

/-- `re.search`: try the pattern at each start position, leftmost first. -/
def searchFence : List Char → Option (List Char)
  | [] => none
  | c :: rest =>
    match matchFenceAt (c :: rest) with
    | some body => some body
    | none => searchFence rest

/-- `extract_first_code_block` (`core/code_extract.py`, lines 9-14):
`None` when the pattern has no match, otherwise the trimmed first group
plus a trailing newline. -/
def extract_first_code_block (text : String) : Option String :=
  match searchFence text.data with
  | none => none
  | some body => some (pyStrip body.asString ++ "\n")

/-- Specification-side predicate, independent of the matching engine:
the text contains an opening fence with a closing fence at least three
characters later (i.e. a fenced block exists). -/
def hasFence : List Char → Bool
  | [] => false
  | c :: rest => fenceAt (c :: rest) || hasFence rest

/-- The text contains two non-overlapping triple-backtick fences. -/
def twoFences : List Char → Bool
  | [] => false
  | c :: rest => (fenceAt (c :: rest) && hasFence (rest.drop 2)) || twoFences rest

/-! ## `core/code_exec.py` -/

/-- The outcome of the `subprocess.run` call in `run_python_code`
(`core/code_exec.py`, lines 33-41), as an oracle: the child either hits
the timeout (raising `TimeoutExpired`, which carries possibly-absent
partial output), runs to completion with an exit code, or fails to spawn
(any other exception, e.g. a missing interpreter — not caught by the
source). -/
inductive ChildOutcome where
  | timeoutExpired (stdoutPart stderrPart : Option String)
  | completed (returncode : ℤ) (stdout stderr : String)
  | spawnFailure (msg : String)
deriving DecidableEq, Repr

/-- `ExecResult` (`core/code_exec.py`, lines 11-18). -/
structure ExecResult where
  ok : Bool
  stdout : String
  stderr : String
  exit_code : ℤ
  exec_ms : ℚ
  error_type : Option String
deriving DecidableEq, Repr

/-- `run_python_code` (`core/code_exec.py`, lines 21-63), as a function
of the child-process outcome and the measured wall-clock duration.
`TimeoutExpired` is caught and encoded; completion is encoded; any other
exception from process creation propagates (`Except.error`). -/
def run_python_code (child : ChildOutcome) (elapsed_ms : ℚ) :
    Except String ExecResult :=
  match child with
  | .timeoutExpired so se =>
    .ok { ok := false
          stdout := so.getD ""
          stderr := se.getD ""
          exit_code := 124
          exec_ms := elapsed_ms
          error_type := some "timeout" }
  | .completed rc out err =>
    let ok := rc == 0
    .ok { ok := ok
          stdout := out
          stderr := err
          exit_code := rc
          exec_ms := elapsed_ms
          error_type := if ok then none else some "runtime_error" }
  | .spawnFailure msg => .error msg

/-! ## `adapters/retry.py`

The HTTP client, the random jitter draw, the `email.utils` HTTP-date
parser and the current time are oracles; everything else is transcribed.
`random.uniform(0.0, cap)` is modelled as `unif a * cap` with a
unit-interval sample `unif a`. -/

/-- An HTTP response as seen by the retry loop: its status code and its
(optional) `Retry-After` header. -/
structure HttpResponse where
  status_code : ℕ
  retry_after : Option String
deriving DecidableEq, Repr

/-- Value of an ASCII digit string. -/
def digitsToNat (l : List Char) : ℕ :=
  l.foldl (fun acc c => acc * 10 + (c.toNat - '0'.toNat)) 0

/-- `_retry_after_seconds` (`adapters/retry.py`, lines 60-79).
`parsedate` is the `email.utils.parsedate_to_datetime` oracle, returning
the parsed HTTP-date as a POSIX timestamp in seconds (`none` when the
value does not parse — the source converts both a `None` result and a
raised exception to `None`); `now` is the current POSIX time. -/
def _retry_after_seconds (parsedate : String → Option ℚ) (now : ℚ) :
    Option String → Option ℚ
  | none => none
  | some value =>
    if value = "" then none
    else
      let v := pyStrip value
      if v ≠ "" && v.data.all pyIsDigit then some ((digitsToNat v.data : ℚ))
      else
        match parsedate v with
        | none => none
        | some dt => some (max 0 (dt - now))

/-- The sleep base computed before a re-issue (`adapters/retry.py`,
lines 48-53): the parsed `Retry-After`, floored at `0` and capped at
`max_delay_s`, when the header parses; otherwise exponential backoff
`base_delay_s * 2^(attempt-1)` capped at `max_delay_s`. -/
def next_delay (parsedate : String → Option ℚ) (now base_delay_s max_delay_s : ℚ)
    (attempt : ℕ) (hdr : Option String) : ℚ :=
  match _retry_after_seconds parsedate now hdr with
  | none => min max_delay_s (base_delay_s * 2 ^ (attempt - 1))
  | some ra => min max_delay_s (max 0 ra)

/-- The upper end of the jitter draw (`adapters/retry.py`, line 56):
`min(1.0, 0.25 * retry_after)`. -/
def jitter_cap (delay : ℚ) : ℚ :=
  min 1 (0.25 * delay)

/-- The trace of one `post_with_429_retries` call: the returned
response, the number of POSTs issued, and the sleeps performed. -/
structure RetryTrace where
  response : HttpResponse
  posts : ℕ
  sleeps : List ℚ
deriving DecidableEq, Repr

/-- The `while True` loop of `post_with_429_retries` (`adapters/retry.py`,
lines 38-57).  `responses k` is the outcome of the `(k+1)`-th POST;
`attempt` counts completed POSTs, matching the source's counter after its
increment.  The loop body runs at most `max_attempts` times, so fuel
initialised to `max_attempts` is only exhausted when `max_attempts = 0`,
in which case the source also returns right after its first POST. -/
def retryGo (responses : ℕ → HttpResponse) (unif : ℕ → ℚ)
    (parsedate : String → Option ℚ) (now base_delay_s max_delay_s : ℚ)
    (max_attempts : ℕ) : ℕ → ℕ → List ℚ → RetryTrace
  | 0, attempt, sleeps => ⟨responses attempt, attempt + 1, sleeps⟩
  | fuel + 1, attempt, sleeps =>
    let r := responses attempt
    if r.status_code ≠ 429 then ⟨r, attempt + 1, sleeps⟩
    else
      let a := attempt + 1
      if max_attempts ≤ a then ⟨r, a, sleeps⟩
      else
        let d := next_delay parsedate now base_delay_s max_delay_s a r.retry_after
        retryGo responses unif parsedate now base_delay_s max_delay_s max_attempts
          fuel a (sleeps ++ [d + unif a * jitter_cap d])

/-- `post_with_429_retries` (`adapters/retry.py`, lines 13-57), as the
trace of its POSTs and sleeps. -/
def post_with_429_retries (responses : ℕ → HttpResponse) (unif : ℕ → ℚ)
    (parsedate : String → Option ℚ) (now base_delay_s max_delay_s : ℚ)
    (max_attempts : ℕ) : RetryTrace :=
  retryGo responses unif parsedate now base_delay_s max_delay_s max_attempts
    max_attempts 0 []

/-- The sleep performed after the `attempt`-th 429 (attempt counting
from 1), spelling out `next_delay` plus the jitter draw. -/
def sleep_at (responses : ℕ → HttpResponse) (unif : ℕ → ℚ)
    (parsedate : String → Option ℚ) (now base_delay_s max_delay_s : ℚ)
    (attempt : ℕ) : ℚ :=
  let d := next_delay parsedate now base_delay_s max_delay_s attempt
    ((responses (attempt - 1)).retry_after)
  d + unif attempt * jitter_cap d

/-! ## `core/prompts.py`

`str.format` is modelled by a parser splitting the template into literal
runs and replacement fields (CPython's rules for `\x7b\x7b`/`\x7d\x7d`
escapes and for the key of a `KeyError` — the field name up to the first
`.`, `[`, `!` or `:`; nested replacement fields inside format specs are
not modelled, no template in this development uses them). -/

/-- One parsed piece of a format template. -/
inductive FormatItem where
  | lit (s : String)
  | field (name : String)
deriving DecidableEq, Repr

/-- Failures of `str.format`: a brace error (`ValueError` in Python) or
a missing key (`KeyError key`). -/
inductive FormatError where
  | braceError
  | keyError (key : String)
deriving DecidableEq, Repr

/-- The template scanner, fuelled for structural recursion; every step
consumes at least one character, so fuel `length + 1` (supplied by
`parseFmt`) is never exhausted. -/
def parseFmtAux : ℕ → List Char → Except Unit (List FormatItem)
  | 0, _ => .error ()
  | _ + 1, [] => .ok []
  | fuel + 1, '{' :: '{' :: rest =>
    (parseFmtAux fuel rest).map (fun items => .lit "\x7b" :: items)
  | fuel + 1, '}' :: '}' :: rest =>
    (parseFmtAux fuel rest).map (fun items => .lit "\x7d" :: items)
  | fuel + 1, '{' :: rest =>
    let fld := rest.takeWhile (fun c => c ≠ '}')
    match rest.drop fld.length with
    | '}' :: rest2 =>
      (parseFmtAux fuel rest2).map (fun items => .field fld.asString :: items)
    | _ => .error ()
  | _ + 1, '}' :: _ => .error ()
  | fuel + 1, c :: rest =>
    (parseFmtAux fuel rest).map (fun items => .lit (String.singleton c) :: items)

/-- Parse a format template into literal and field items. -/
def parseFmt (l : List Char) : Except Unit (List FormatItem) :=
  parseFmtAux (l.length + 1) l

/-- The key a missing field raises as `KeyError`: the field name up to
the first `.`, `[`, `!` or `:`. -/
def fieldKey (name : String) : String :=
  (name.data.takeWhile
    (fun c => c ≠ '.' && c ≠ '[' && c ≠ '!' && c ≠ ':')).asString

/-- Substitute items against a keyword map, failing with the first
missing key (Python raises `KeyError` at the first unknown field). -/
def renderItems (vals : String → Option String) :
    List FormatItem → Except FormatError String
  | [] => .ok ""
  | .lit s :: items =>
    (renderItems vals items).map (fun out => s ++ out)
  | .field name :: items =>
    match vals (fieldKey name) with
    | none => .error (.keyError (fieldKey name))
    | some v => (renderItems vals items).map (fun out => v ++ out)

/-- Python `template.format(**kwargs)` with `kwargs` given as a map. -/
def pyFormat (template : String) (vals : String → Option String) :
    Except FormatError String :=
  match parseFmt template.data with
  | .error _ => .error .braceError
  | .ok items => renderItems vals items

/-- The keyword arguments passed by `render_prompt`
(`core/prompts.py`, lines 36-39): `years` and `problem_statement`. -/
def renderVals (years problem_statement : String) :
    String → Option String :=
  fun key =>
    if key = "years" then some years
    else if key = "problem_statement" then some problem_statement
    else none

/-- `PromptRendered` (`core/prompts.py`, lines 7-11). -/
structure PromptRendered where
  system : String
  user : String
  rendered_sha256 : String
deriving DecidableEq, Repr

/-- The failure modes of `render_prompt`: the dedicated `ValueError` for
an `input_payload` placeholder, a re-raised `KeyError` for any other
unknown field, and the brace `ValueError` from `str.format` itself. -/
inductive RenderError where
  | valueErrorInputPayload
  | reraisedKeyError (key : String)
  | formatValueError
deriving DecidableEq, Repr

/-- The fixed system prompt built by `render_prompt`
(`core/prompts.py`, lines 22-30). -/
def system_text (years_experience : ℤ) : String :=
  "You are a software engineer with " ++ toString years_experience ++
  " years of experience.\n" ++
  "Solve the user's programming task one-shot, using your years of experience as a source of expertise.\n" ++
  "Return only Python code in a single fenced code block.\n" ++
  "Your program must read from stdin and print exactly two lines:\n" ++
  "- line 1: Part A answer\n" ++
  "- line 2: Part B answer\n" ++
  "Do not print anything else.\n"

/-- `render_prompt` (`core/prompts.py`, lines 14-53).  `sha` is the
SHA-256 oracle.  A `KeyError` on `input_payload` becomes the dedicated
`ValueError`; any other `KeyError` is re-raised; both propagate. -/
def render_prompt (sha : String → String) (template : String)
    (years_experience : ℤ) (problem_statement : String) :
    Except RenderError PromptRendered :=
  match pyFormat template (renderVals (toString years_experience) problem_statement) with
  | .ok user =>
    let system := system_text years_experience
    .ok { system := system, user := user,
          rendered_sha256 := sha (system ++ "\n\n" ++ user) }
  | .error (.keyError k) =>
    if k = "input_payload" then .error .valueErrorInputPayload
    else .error (.reraisedKeyError k)
  | .error .braceError => .error .formatValueError

/-- Does the template contain a replacement field for the raw input
payload (a field whose `KeyError` key would be `input_payload`)? -/
def has_input_payload_field (template : String) : Bool :=
  match parseFmt template.data with
  | .ok items => items.any (fun it =>
      match it with
      | .field n => fieldKey n = "input_payload"
      | .lit _ => false)
  | .error _ => false

/-! ## `core/model_spec.py` and `core/records.py` -/

/-- `ModelSpec` (`core/model_spec.py`, lines 6-19). -/
structure ModelSpec where
  provider : String
  model : String
deriving DecidableEq, Repr

/-- `ModelSpec.model_spec` property. -/
def ModelSpec.model_spec (ms : ModelSpec) : String :=
  ms.provider ++ ":" ++ ms.model

/-- `ModelSpec.model_key` property (equal to `model_spec`). -/
def ModelSpec.model_key (ms : ModelSpec) : String :=
  ms.model_spec

/-- `TrialRecord` (`core/records.py`, lines 7-44); `float` fields become
`ℚ`, `dict` payloads become abstract optional strings. -/
structure TrialRecord where
  run_id : String
  timestamp_utc : String
  benchmark_id : String
  years : ℤ
  run_index : ℕ
  provider : String
  model_spec : String
  model_key : String
  prompt_rendered_sha256 : String
  status : String
  error_type : Option String
  error_message : Option String
  ttlt_ms : Option ℚ
  exec_ms : Option ℚ
  passed_a : Option Bool
  passed_b : Option Bool
  passed_all : Option Bool
  output_a : Option String
  output_b : Option String
  expected_a : String
  expected_b : String
  raw_usage : Option String
  usage_derived : Option String
  response_text_len : Option ℕ
  extracted_code_len : Option ℕ
deriving DecidableEq, Repr

/-- `CompletionResult` (`adapters/types.py`, lines 7-11); the `dict`
payloads become abstract optional strings. -/
structure CompletionResult where
  text : String
  raw_usage : Option String
  usage_derived : Option String
deriving DecidableEq, Repr

/-! ## `core/run.py` — the measured trial and the driver

A measured trial touches four effects: the wall clock, the adapter, the
sandbox child process, and artifact files.  The first three are oracles
bundled in `TrialInputs`; artifact writing (`_write_artifacts`) only
performs filesystem output and returns nothing, so it is not modelled.
The trial returns the number of `adapter.complete` invocations alongside
its result so that the safety claim "no network call" is a statement
about the embedding, not about its absence. -/

/-- The per-trial oracle bundle: the outcome of `render_prompt`, the
timestamp string, the measured provider wall time in ms, the outcome of
`adapter.complete` (an exception message or a result), the sandbox child
outcome and its measured wall time.  The source re-reads the clock in
its exception handler; both reads are represented by `ttlt_ms`. -/
structure TrialInputs where
  render : Except RenderError PromptRendered
  ts : String
  ttlt_ms : ℚ
  provider : Except String CompletionResult
  child : ChildOutcome
  exec_elapsed_ms : ℚ

/-- The run-wide constants captured by the `_run_measured_trial`
closure: `run_id`, `spec.benchmark_id`, `spec.expected.part_a/b`. -/
structure RunConfig where
  run_id : String
  benchmark_id : String
  expected_a : String
  expected_b : String
deriving DecidableEq, Repr

/-- `_run_measured_trial` (`core/run.py`, lines 96-318).  Returns the
produced record — or the propagated exception when `render_prompt`
raised, since that call sits outside the `try` block — together with the
number of `adapter.complete` calls made.  Every failure inside the
`try` block yields a record: a provider exception or a sandbox spawn
failure lands in the `except` branch (error type `provider_error`), a
missing code block yields `parse_error`, a failed execution yields the
executor's error type, and evaluation fills the pass flags. -/
def _run_measured_trial (cfg : RunConfig) (inp : TrialInputs)
    (ms : ModelSpec) (y : ℤ) (i : ℕ) :
    Except RenderError TrialRecord × ℕ :=
  match inp.render with
  | .error e => (.error e, 0)
  | .ok pr =>
    match inp.provider with
    | .error e =>
      (.ok { run_id := cfg.run_id
             timestamp_utc := inp.ts
             benchmark_id := cfg.benchmark_id
             years := y
             run_index := i
             provider := ms.provider
             model_spec := ms.model_spec
             model_key := ms.model_key
             prompt_rendered_sha256 := pr.rendered_sha256
             status := "error"
             error_type := some "provider_error"
             error_message := some (pyTake e 800)
             ttlt_ms := some inp.ttlt_ms
             exec_ms := none
             passed_a := none
             passed_b := none
             passed_all := none
             output_a := none
             output_b := none
             expected_a := cfg.expected_a
             expected_b := cfg.expected_b
             raw_usage := none
             usage_derived := none
             response_text_len := none
             extracted_code_len := none }, 1)
    | .ok resp =>
      match extract_first_code_block resp.text with
      | none =>
        (.ok { run_id := cfg.run_id
               timestamp_utc := inp.ts
               benchmark_id := cfg.benchmark_id
               years := y
               run_index := i
               provider := ms.provider
               model_spec := ms.model_spec
               model_key := ms.model_key
               prompt_rendered_sha256 := pr.rendered_sha256
               status := "error"
               error_type := some "parse_error"
               error_message := some "No fenced code block found"
               ttlt_ms := some inp.ttlt_ms
               exec_ms := none
               passed_a := none
               passed_b := none
               passed_all := none
               output_a := none
               output_b := none
               expected_a := cfg.expected_a
               expected_b := cfg.expected_b
               raw_usage := resp.raw_usage
               usage_derived := resp.usage_derived
               response_text_len := some resp.text.length
               extracted_code_len := none }, 1)
      | some code =>
        match run_python_code inp.child inp.exec_elapsed_ms with
        | .error e =>
          -- a spawn failure raised inside the `try` block: caught by the
          -- broad `except Exception` handler (lines 274-318)
          (.ok { run_id := cfg.run_id
                 timestamp_utc := inp.ts
                 benchmark_id := cfg.benchmark_id
                 years := y
                 run_index := i
                 provider := ms.provider
                 model_spec := ms.model_spec
                 model_key := ms.model_key
                 prompt_rendered_sha256 := pr.rendered_sha256
                 status := "error"
                 error_type := some "provider_error"
                 error_message := some (pyTake e 800)
                 ttlt_ms := some inp.ttlt_ms
                 exec_ms := none
                 passed_a := none
                 passed_b := none
                 passed_all := none
                 output_a := none
                 output_b := none
                 expected_a := cfg.expected_a
                 expected_b := cfg.expected_b
                 raw_usage := none
                 usage_derived := none
                 response_text_len := some resp.text.length
                 extracted_code_len := some code.length }, 1)
        | .ok exec_res =>
          if exec_res.ok then
            let ev := eval_two_line_stdout exec_res.stdout cfg.expected_a cfg.expected_b
            (.ok { run_id := cfg.run_id
                   timestamp_utc := inp.ts
                   benchmark_id := cfg.benchmark_id
                   years := y
                   run_index := i
                   provider := ms.provider
                   model_spec := ms.model_spec
                   model_key := ms.model_key
                   prompt_rendered_sha256 := pr.rendered_sha256
                   status := if ev.passed_all then "ok" else "error"
                   error_type := if ev.passed_all then none else ev.error_type
                   error_message := if ev.passed_all then none else ev.error_message
                   ttlt_ms := some inp.ttlt_ms
                   exec_ms := some exec_res.exec_ms
                   passed_a := some ev.passed_a
                   passed_b := some ev.passed_b
                   passed_all := some ev.passed_all
                   output_a := ev.output_a
                   output_b := ev.output_b
                   expected_a := cfg.expected_a
                   expected_b := cfg.expected_b
                   raw_usage := resp.raw_usage
                   usage_derived := resp.usage_derived
                   response_text_len := some resp.text.length
                   extracted_code_len := some code.length }, 1)
          else
            (.ok { run_id := cfg.run_id
                   timestamp_utc := inp.ts
                   benchmark_id := cfg.benchmark_id
                   years := y
                   run_index := i
                   provider := ms.provider
                   model_spec := ms.model_spec
                   model_key := ms.model_key
                   prompt_rendered_sha256 := pr.rendered_sha256
                   status := "error"
                   error_type := exec_res.error_type
                   error_message :=
                     (let m := pyTake (pyStrip exec_res.stderr) 800
                      if m = "" then none else some m)
                   ttlt_ms := some inp.ttlt_ms
                   exec_ms := some exec_res.exec_ms
                   passed_a := some false
                   passed_b := some false
                   passed_all := some false
                   output_a := none
                   output_b := none
                   expected_a := cfg.expected_a
                   expected_b := cfg.expected_b
                   raw_usage := resp.raw_usage
                   usage_derived := resp.usage_derived
                   response_text_len := some resp.text.length
                   extracted_code_len := some code.length }, 1)

/-- The record the concurrent driver builds when a future raises
(`core/run.py`, lines 377-404). -/
def runner_error_record (cfg : RunConfig) (ms : ModelSpec) (y : ℤ) (i : ℕ)
    (ts msg : String) : TrialRecord :=
  { run_id := cfg.run_id
    timestamp_utc := ts
    benchmark_id := cfg.benchmark_id
    years := y
    run_index := i
    provider := ms.provider
    model_spec := ms.model_spec
    model_key := ms.model_key
    prompt_rendered_sha256 := ""
    status := "error"
    error_type := some "runner_error"
    error_message := some (pyTake msg 800)
    ttlt_ms := none
    exec_ms := none
    passed_a := none
    passed_b := none
    passed_all := none
    output_a := none
    output_b := none
    expected_a := cfg.expected_a
    expected_b := cfg.expected_b
    raw_usage := none
    usage_derived := none
    response_text_len := none
    extracted_code_len := none }

/-- The measured task list (`core/run.py`, lines 351-356): one task per
model, years value, and run index. -/
def mkTasks (models : List ModelSpec) (years : List ℤ)
    (runs_per_setting : ℕ) : List (ModelSpec × ℤ × ℕ) :=
  models.flatMap (fun ms =>
    years.flatMap (fun y =>
      (List.range runs_per_setting).map (fun i => (ms, y, i))))

/-- The `concurrency == 1` measured loop (`core/run.py`, lines 359-363):
tasks run strictly sequentially in submission order; an exception
escaping `_run_measured_trial` (only a render failure in this model)
aborts the loop and propagates. -/
def run_measured_seq (cfg : RunConfig)
    (inputs : ModelSpec × ℤ × ℕ → TrialInputs)
    (models : List ModelSpec) (years : List ℤ) (runs_per_setting : ℕ) :
    Except RenderError (List TrialRecord) :=
  (mkTasks models years runs_per_setting).mapM
    (fun t => (_run_measured_trial cfg (inputs t) t.1 t.2.1 t.2.2).1)

/-- The `concurrency > 1` measured loop (`core/run.py`, lines 364-406):
futures complete in an arbitrary order (`order`, a permutation of the
task list); a future that raises still yields a record, built by
`runner_error_record` from the task recovered via `future_to_task`.
`exn_ts` and `exn_msg` are the timestamp and `str(e)` oracles of the
handler. -/
def run_measured_conc (cfg : RunConfig)
    (inputs : ModelSpec × ℤ × ℕ → TrialInputs)
    (exn_ts : ModelSpec × ℤ × ℕ → String) (exn_msg : RenderError → String)
    (order : List (ModelSpec × ℤ × ℕ)) : List TrialRecord :=
  order.map (fun t =>
    match (_run_measured_trial cfg (inputs t) t.1 t.2.1 t.2.2).1 with
    | .ok r => r
    | .error e => runner_error_record cfg t.1 t.2.1 t.2.2 (exn_ts t) (exn_msg e))

/-- `append_jsonl` (`core/storage.py`, lines 10-18): the file is a list
of lines; one serialized line is appended per record, and the count of
appended lines is returned. -/
def append_jsonl (serialize : TrialRecord → String) (file : List String)
    (records : List TrialRecord) : List String × ℕ :=
  (file ++ records.map serialize, records.length)

/-- The value assembled by a completed `run_benchmark` call: the
collected records, the JSONL file content, and the written-line count it
reports. -/
structure RunOutcome where
  records : List TrialRecord
  file_lines : List String
  records_written : ℕ

/-- `run_benchmark` at `concurrency == 1` (`core/run.py`, lines 26-412),
measured phase and JSONL append.  The warmup phase (lines 321-348) makes
`warmup` unrecorded adapter calls per (model, years) pair, swallows
their failures, and contributes nothing to `records`; it is represented
only by the ignored `warmup` argument. -/
def run_benchmark (cfg : RunConfig)
    (inputs : ModelSpec × ℤ × ℕ → TrialInputs)
    (serialize : TrialRecord → String)
    (models : List ModelSpec) (years : List ℤ)
    (runs_per_setting warmup : ℕ) (file : List String) :
    Except RenderError RunOutcome :=
  let _ := warmup
  match run_measured_seq cfg inputs models years runs_per_setting with
  | .error e => .error e
  | .ok recs =>
    let fw := append_jsonl serialize file recs
    .ok { records := recs, file_lines := fw.1, records_written := fw.2 }

/-- The task identity `(model_spec, years, run_index)` of a task. -/
def task_triple (t : ModelSpec × ℤ × ℕ) : String × ℤ × ℕ :=
  (t.1.model_spec, t.2.1, t.2.2)

/-- The task identity carried by a record. -/
def rec_triple (r : TrialRecord) : String × ℤ × ℕ :=
  (r.model_spec, r.years, r.run_index)

/-! ## Specification-side definitions

Used only to compare the code's behaviour against the spec's words. -/

/-- The character class the spec asserts for sanitized model keys:
`[A-Za-z0-9._-]` (ASCII alphanumerics plus `.`, `_`, `-`). -/
def ascii_safe_char (c : Char) : Bool :=
  c.isAlphanum || c = '.' || c = '_' || c = '-'

/-- Modelled from the claim's words, not from the source: the delay the
claim asserts before a re-issue — "the parsed Retry-After value when
present, otherwise base_delay * 2^(attempt-1) capped at max_delay" (no
cap on the Retry-After branch). -/
def claimed_delay (parsedate : String → Option ℚ) (now base_delay_s max_delay_s : ℚ)
    (attempt : ℕ) (hdr : Option String) : ℚ :=
  match _retry_after_seconds parsedate now hdr with
  | some ra => ra
  | none => min max_delay_s (base_delay_s * 2 ^ (attempt - 1))

/-- An ASCII apostrophe, by code point. -/
def apos : Char := Char.ofNat 39

/-- The body of the spec's extraction example. -/
def printx_body : String :=
  "print(" ++ String.singleton apos ++ "x" ++ String.singleton apos ++ ")"

/-- The spec's extraction example input. -/
def sample_markdown : String :=
  "hello\n```python\n" ++ printx_body ++ "\n```\nbye"

/-! ## Helper lemmas -/

theorem head?_dropWhile_not (p : Char → Bool) :
    ∀ (l : List Char) (c : Char), (l.dropWhile p).head? = some c → p c = false := by
  intro l
  induction l with
  | nil => intro c h; simp [List.dropWhile] at h
  | cons a rest ih =>
    intro c h
    by_cases ha : p a
    · rw [List.dropWhile_cons_of_pos ha] at h
      exact ih c h
    · rw [List.dropWhile_cons_of_neg ha] at h
      simp at h
      rw [← h]
      exact Bool.eq_false_iff.mpr ha

theorem getLast?_dropWhile (p : Char → Bool) :
    ∀ l : List Char, l.dropWhile p = [] ∨ (l.dropWhile p).getLast? = l.getLast? := by
  intro l
  induction l with
  | nil => left; rfl
  | cons a rest ih =>
    by_cases ha : p a
    · rw [List.dropWhile_cons_of_pos ha]
      cases rest with
      | nil => left; rfl
      | cons b tl =>
        rcases ih with h | h
        · left; exact h
        · right
          rw [h]
          exact (@List.getLast?_cons_cons _ a b tl).symm
    · right
      rw [List.dropWhile_cons_of_neg ha]

theorem stripBy_data (p : Char → Bool) (s : String) :
    (stripBy p s).data = ((s.data.dropWhile p).reverse.dropWhile p).reverse := rfl

theorem stripBy_mem (p : Char → Bool) (s : String) (c : Char)
    (h : c ∈ (stripBy p s).data) : c ∈ s.data := by
  rw [stripBy_data, List.mem_reverse] at h
  have h1 := (List.dropWhile_sublist (l := (s.data.dropWhile p).reverse) (p := p)).subset h
  rw [List.mem_reverse] at h1
  exact (List.dropWhile_sublist (l := s.data) (p := p)).subset h1

theorem stripBy_head_not (p : Char → Bool) (s : String) (c : Char)
    (h : (stripBy p s).data.head? = some c) : p c = false := by
  rw [stripBy_data, List.head?_reverse] at h
  rcases getLast?_dropWhile p (s.data.dropWhile p).reverse with he | hl
  · rw [he] at h
    simp at h
  · rw [hl, List.getLast?_reverse] at h
    exact head?_dropWhile_not p _ c h

theorem stripBy_last_not (p : Char → Bool) (s : String) (c : Char)
    (h : (stripBy p s).data.getLast? = some c) : p c = false := by
  rw [stripBy_data, List.getLast?_reverse] at h
  exact head?_dropWhile_not p _ c h

/-! ## Claim theorems: the evaluator -/

/-- C4: `eval_two_line_stdout` splits stdout (with trailing newlines
stripped) into non-empty-after-trim lines; with fewer than 2 such lines
it reports `output_parse_error` with the observed count; otherwise it
compares line 1 and line 2 to the expected strings by exact string
equality, and always sets `passed_all = passed_a AND passed_b`; on
`"1\n2\n"` against `"1"`, `"2"` it passes, and on `"1\n"` it reports
`output_parse_error`. -/
theorem C4_eval_two_line_stdout (stdout ea eb : String) :
    (((eval_two_line_stdout stdout ea eb).passed_all) =
       (((eval_two_line_stdout stdout ea eb).passed_a) &&
        ((eval_two_line_stdout stdout ea eb).passed_b))) ∧
    ((nonempty_trimmed_lines stdout).length < 2 →
       (eval_two_line_stdout stdout ea eb).error_type = some "output_parse_error" ∧
       (eval_two_line_stdout stdout ea eb).error_message =
         some ("Expected 2 non-empty lines, got " ++
               toString (nonempty_trimmed_lines stdout).length)) ∧
    (2 ≤ (nonempty_trimmed_lines stdout).length →
       (eval_two_line_stdout stdout ea eb).error_type = none ∧
       ((eval_two_line_stdout stdout ea eb).passed_a = true ↔
          (nonempty_trimmed_lines stdout).headI = ea) ∧
       ((eval_two_line_stdout stdout ea eb).passed_b = true ↔
          (nonempty_trimmed_lines stdout).getI 1 = eb)) ∧
    (eval_two_line_stdout "1\n2\n" "1" "2").passed_all = true ∧
    (eval_two_line_stdout "1\n" ea eb).error_type = some "output_parse_error" := by
  refine ⟨?_, ?_, ?_, by decide, ?_⟩
  · by_cases h : (nonempty_trimmed_lines stdout).length < 2
    · simp [eval_two_line_stdout, h]
    · simp [eval_two_line_stdout, h]
  · intro h
    simp [eval_two_line_stdout, h]
  · intro h
    have h2 : ¬((nonempty_trimmed_lines stdout).length < 2) := by omega
    simp [eval_two_line_stdout, h2]
  · have h1 : (nonempty_trimmed_lines "1\n").length < 2 := by decide
    simp [eval_two_line_stdout, h1]

/-- C4 witness: the theorem applied to the two example inputs, with the
line-count hypotheses discharged concretely. -/
theorem C4_eval_two_line_stdout_witness :
    (eval_two_line_stdout "1\n2\n" "1" "2").passed_all = true ∧
    (eval_two_line_stdout "1\n" "1" "2").error_type = some "output_parse_error" ∧
    (eval_two_line_stdout "1\n" "1" "2").error_message =
      some "Expected 2 non-empty lines, got 1" ∧
    (eval_two_line_stdout "1\n2\n" "1" "2").error_type = none := by
  refine ⟨(C4_eval_two_line_stdout "1\n2\n" "1" "2").2.2.2.1, ?_, ?_, ?_⟩
  · exact ((C4_eval_two_line_stdout "1\n" "1" "2").2.1 (by decide)).1
  · exact ((C4_eval_two_line_stdout "1\n" "1" "2").2.1 (by decide)).2
  · exact ((C4_eval_two_line_stdout "1\n2\n" "1" "2").2.2.1 (by decide)).1

/-- C10: with fewer than 2 non-empty trimmed lines, the evaluator
reports the single observed line (or null) in `output_a`, null in
`output_b`, and all three pass flags false. -/
theorem C10_eval_short_output (stdout ea eb : String)
    (h : (nonempty_trimmed_lines stdout).length < 2) :
    (eval_two_line_stdout stdout ea eb).output_a =
      (nonempty_trimmed_lines stdout).head? ∧
    (∀ l, nonempty_trimmed_lines stdout = [l] →
       (eval_two_line_stdout stdout ea eb).output_a = some l) ∧
    (nonempty_trimmed_lines stdout = [] →
       (eval_two_line_stdout stdout ea eb).output_a = none) ∧
    (eval_two_line_stdout stdout ea eb).output_b = none ∧
    (eval_two_line_stdout stdout ea eb).passed_a = false ∧
    (eval_two_line_stdout stdout ea eb).passed_b = false ∧
    (eval_two_line_stdout stdout ea eb).passed_all = false := by
  refine ⟨?_, ?_, ?_, ?_, ?_, ?_, ?_⟩
  · simp [eval_two_line_stdout, h]
  · intro l hl
    simp [eval_two_line_stdout, h, hl]
  · intro hl
    simp [eval_two_line_stdout, h, hl]
  · simp [eval_two_line_stdout, h]
  · simp [eval_two_line_stdout, h]
  · simp [eval_two_line_stdout, h]
  · simp [eval_two_line_stdout, h]

/-- C10 witness: the theorem applied at the one-line input. -/
theorem C10_eval_short_output_witness :
    (eval_two_line_stdout "1\n" "1" "2").output_a = some "1" ∧
    (eval_two_line_stdout "1\n" "1" "2").output_b = none ∧
    (eval_two_line_stdout "1\n" "1" "2").passed_all = false := by
  have h := C10_eval_short_output "1\n" "1" "2" (by decide)
  exact ⟨h.2.1 "1" (by decide), h.2.2.2.1, h.2.2.2.2.2.2⟩

/-! ## Claim theorems: the model-key sanitizer -/

/-- C5 counterexample: the sanitizer passes the Python-alphanumeric
character `é` through unchanged, so its output is not confined to the
ASCII class `[A-Za-z0-9._-]` the claim states. -/
theorem C5_counterexample :
    _safe_path_component "é" = "é" ∧
    (_safe_path_component "é").data.all ascii_safe_char = false := by decide

/-- C5 (amended): for every input, the sanitizer's output contains only
Python-alphanumeric characters (which include non-ASCII letters such as
`é`) and `-`, `_`, `.`; it never starts or ends with `.` or `_`; it is
never empty; and `"///"` maps to `"model"`. -/
theorem C5_safe_path_component (text : String) :
    (∀ c ∈ (_safe_path_component text).data,
       pyIsAlnum c = true ∨ c = '-' ∨ c = '_' ∨ c = '.') ∧
    _safe_path_component text ≠ "" ∧
    (∀ c, (_safe_path_component text).data.head? = some c →
       c ≠ '.' ∧ c ≠ '_') ∧
    (∀ c, (_safe_path_component text).data.getLast? = some c →
       c ≠ '.' ∧ c ≠ '_') ∧
    _safe_path_component "///" = "model" := by
  have hclean : ∀ a : Char,
      pyIsAlnum (clean_char a) = true ∨ clean_char a = '-' ∨
      clean_char a = '_' ∨ clean_char a = '.' := by
    intro a
    unfold clean_char
    by_cases hg : (pyIsAlnum a || a = '-' || a = '_' || a = '.') = true
    · rw [if_pos hg]
      simp at hg
      tauto
    · rw [if_neg hg]
      right; right; left; rfl
  have hdef : _safe_path_component text =
      (if stripBy (fun c => c = '.' || c = '_')
            (text.data.map clean_char).asString = ""
       then "model"
       else stripBy (fun c => c = '.' || c = '_')
            (text.data.map clean_char).asString) := rfl
  by_cases hs : stripBy (fun c => c = '.' || c = '_')
      (text.data.map clean_char).asString = ""
  · rw [hdef, if_pos hs]
    refine ⟨?_, by decide, ?_, ?_, by decide⟩
    · intro c hc
      have hm : ("model" : String).data = ['m', 'o', 'd', 'e', 'l'] := rfl
      rw [hm] at hc
      fin_cases hc <;> decide
    · intro c hc
      simp at hc
      rw [← hc]
      decide
    · intro c hc
      simp at hc
      rw [← hc]
      decide
  · rw [hdef, if_neg hs]
    refine ⟨?_, hs, ?_, ?_, by decide⟩
    · intro c hc
      have h1 := stripBy_mem _ _ _ hc
      have hdata : ((text.data.map clean_char).asString).data =
          text.data.map clean_char := rfl
      rw [hdata] at h1
      simp only [List.mem_map] at h1
      obtain ⟨a, _, ha⟩ := h1
      rw [← ha]
      exact hclean a
    · intro c hc
      have h2 := stripBy_head_not _ _ _ hc
      simp at h2
      exact h2
    · intro c hc
      have h2 := stripBy_last_not _ _ _ hc
      simp at h2
      exact h2

/-- C5 witness: the amended theorem applied at a concrete model key,
with its head/last hypotheses discharged there. -/
theorem C5_safe_path_component_witness :
    (∀ c ∈ (_safe_path_component "a/b.").data,
       pyIsAlnum c = true ∨ c = '-' ∨ c = '_' ∨ c = '.') ∧
    _safe_path_component "a/b." ≠ "" ∧
    ('a' ≠ '.' ∧ 'a' ≠ '_') ∧
    _safe_path_component "///" = "model" := by
  have h := C5_safe_path_component "a/b."
  exact ⟨h.1, h.2.1, h.2.2.1 'a' (by decide), h.2.2.2.2⟩

/-! ## Claim theorems: Retry-After parsing -/

/-- C3: the Retry-After parser maps `"0"` to `0.0` and `"12"` to `12.0`
(tolerating surrounding whitespace), maps `None`, `""` and an
unparsable value such as `"nonsense"` to null, and converts an
HTTP-date to a non-negative delta from now. -/
theorem C3_retry_after_seconds (parsedate : String → Option ℚ) (now : ℚ) :
    _retry_after_seconds parsedate now (some "0") = some 0 ∧
    _retry_after_seconds parsedate now (some "12") = some 12 ∧
    _retry_after_seconds parsedate now (some " 12 ") = some 12 ∧
    _retry_after_seconds parsedate now none = none ∧
    _retry_after_seconds parsedate now (some "") = none ∧
    (parsedate "nonsense" = none →
       _retry_after_seconds parsedate now (some "nonsense") = none) ∧
    (∀ v dt, v ≠ "" → (pyStrip v).data.all pyIsDigit = false →
       parsedate (pyStrip v) = some dt →
       _retry_after_seconds parsedate now (some v) = some (max 0 (dt - now)) ∧
       0 ≤ max 0 (dt - now)) := by
  refine ⟨rfl, rfl, rfl, rfl, rfl, ?_, ?_⟩
  · intro hp
    show (if ("nonsense" : String) = "" then none
          else
            let v := pyStrip "nonsense"
            if v ≠ "" && v.data.all pyIsDigit then
              some ((digitsToNat v.data : ℚ))
            else
              match parsedate v with
              | none => none
              | some dt => some (max 0 (dt - now))) = none
    have h1 : pyStrip "nonsense" = "nonsense" := rfl
    rw [if_neg (by decide)]
    simp only [h1]
    rw [if_neg (by decide)]
    rw [hp]
  · intro v dt hv hdig hp
    constructor
    · show (if v = "" then none
            else
              let w := pyStrip v
              if w ≠ "" && w.data.all pyIsDigit then
                some ((digitsToNat w.data : ℚ))
              else
                match parsedate w with
                | none => none
                | some dt => some (max 0 (dt - now))) = _
      rw [if_neg hv]
      have hguard : ((pyStrip v ≠ "") && (pyStrip v).data.all pyIsDigit) = false := by
        rw [hdig]
        exact Bool.and_false _
      simp only [hguard]
      rw [if_neg (by simp [hguard])]
      rw [hp]
    · exact le_max_left 0 (dt - now)

/-- C3 witness: the theorem applied at two concrete date-parsing
oracles, discharging the `"nonsense"` and HTTP-date hypotheses. -/
theorem C3_retry_after_seconds_witness :
    _retry_after_seconds (fun _ => none) 0 (some "0") = some 0 ∧
    _retry_after_seconds (fun _ => none) 0 (some " 12 ") = some 12 ∧
    _retry_after_seconds (fun _ => none) 0 (some "nonsense") = none ∧
    _retry_after_seconds (fun s => if s = "Wed, 21 Oct 2015 07:28:00 GMT" then some 100 else none)
      40 (some "Wed, 21 Oct 2015 07:28:00 GMT") = some (max 0 (100 - 40)) := by
  refine ⟨(C3_retry_after_seconds (fun _ => none) 0).1,
          (C3_retry_after_seconds (fun _ => none) 0).2.2.1,
          (C3_retry_after_seconds (fun _ => none) 0).2.2.2.2.2.1 rfl, ?_⟩
  exact ((C3_retry_after_seconds
      (fun s => if s = "Wed, 21 Oct 2015 07:28:00 GMT" then some 100 else none) 40).2.2.2.2.2.2
    "Wed, 21 Oct 2015 07:28:00 GMT" 100 (by decide) (by decide) (by decide)).1

/-! ## Claim theorems: the sandboxed executor -/

/-- C7: the executor encodes a timeout as `ok=false`,
`error_type="timeout"`, exit code 124 with partial output preserved,
encodes a non-zero exit as `ok=false`, `error_type="runtime_error"`,
and never raises for child-process failures (timeout or completion) —
only a spawn failure propagates. -/
theorem C7_run_python_code (child : ChildOutcome) (elapsed : ℚ) :
    (∀ so se, child = .timeoutExpired so se →
       run_python_code child elapsed =
         .ok { ok := false, stdout := so.getD "", stderr := se.getD "",
               exit_code := 124, exec_ms := elapsed,
               error_type := some "timeout" }) ∧
    (∀ rc out err, child = .completed rc out err → rc ≠ 0 →
       run_python_code child elapsed =
         .ok { ok := false, stdout := out, stderr := err, exit_code := rc,
               exec_ms := elapsed, error_type := some "runtime_error" }) ∧
    ((∀ m, child ≠ .spawnFailure m) →
       ∃ r, run_python_code child elapsed = .ok r) := by
  refine ⟨?_, ?_, ?_⟩
  · intro so se h
    rw [h]
    rfl
  · intro rc out err h hrc
    rw [h]
    have hbeq : (rc == 0) = false := by
      simp [hrc]
    simp [run_python_code, hbeq]
  · intro h
    cases child with
    | timeoutExpired so se => exact ⟨_, rfl⟩
    | completed rc out err => exact ⟨_, rfl⟩
    | spawnFailure m => exact absurd rfl (h m)

/-- C7 witness: the theorem applied at a concrete timeout outcome, a
concrete non-zero exit, and a concrete completion. -/
theorem C7_run_python_code_witness :
    run_python_code (.timeoutExpired (some "part") none) 7 =
      .ok { ok := false, stdout := "part", stderr := "",
            exit_code := 124, exec_ms := 7, error_type := some "timeout" } ∧
    run_python_code (.completed 1 "" "boom") 7 =
      .ok { ok := false, stdout := "", stderr := "boom", exit_code := 1,
            exec_ms := 7, error_type := some "runtime_error" } ∧
    (∃ r, run_python_code (.completed 0 "1\n2\n" "") 7 = .ok r) := by
  refine ⟨?_, ?_, ?_⟩
  · exact (C7_run_python_code (.timeoutExpired (some "part") none) 7).1
      (some "part") none rfl
  · exact (C7_run_python_code (.completed 1 "" "boom") 7).2.1 1 "" "boom" rfl
      (by decide)
  · exact (C7_run_python_code (.completed 0 "1\n2\n" "") 7).2.2
      (by intro m h; cases h)

/-! ## Claim theorems: the code-block extractor -/

theorem bodyUntilFence_isSome (l : List Char) :
    (bodyUntilFence l).isSome = hasFence l := by
  induction l with
  | nil => rfl
  | cons c rest ih =>
    rw [bodyUntilFence, hasFence]
    by_cases hf : fenceAt (c :: rest)
    · simp [hf]
    · simp only [Bool.not_eq_true] at hf
      rw [hf, if_neg Bool.false_ne_true, Bool.false_or, ← ih]
      cases bodyUntilFence rest <;> rfl

theorem fenceAt_cons_ne {c : Char} (l : List Char) (h : c ≠ '`') :
    fenceAt (c :: l) = false := by
  unfold fenceAt
  split
  · rename_i heq
    injection heq with h1 _
    exact absurd h1 h
  · rfl

theorem hasFence_cons_ne {c : Char} (l : List Char) (h : c ≠ '`') :
    hasFence (c :: l) = hasFence l := by
  rw [hasFence, fenceAt_cons_ne l h]
  simp

theorem hasFence_dropWhile (p : Char → Bool) (hp : p '`' = false) :
    ∀ l : List Char, hasFence (l.dropWhile p) = hasFence l := by
  intro l
  induction l with
  | nil => rfl
  | cons c rest ih =>
    by_cases hc : p c
    · rw [List.dropWhile_cons_of_pos hc, ih, hasFence_cons_ne]
      intro he
      rw [he] at hc
      rw [hp] at hc
      cases hc
    · rw [List.dropWhile_cons_of_neg hc]

theorem hasFence_drop6_of_tag (l : List Char) (h : pythonTagAt l = true) :
    hasFence (l.drop 6) = hasFence l := by
  unfold pythonTagAt at h
  split at h
  · rename_i c1 c2 c3 c4 c5 c6 tl
    simp only [Bool.and_eq_true, Bool.or_eq_true, decide_eq_true_eq] at h
    obtain ⟨⟨⟨⟨⟨h1, h2⟩, h3⟩, h4⟩, h5⟩, h6⟩
      := h
    show hasFence tl = hasFence (c1 :: c2 :: c3 :: c4 :: c5 :: c6 :: tl)
    rw [hasFence_cons_ne _ (by rcases h1 with h | h <;> rw [h] <;> decide),
        hasFence_cons_ne _ (by rcases h2 with h | h <;> rw [h] <;> decide),
        hasFence_cons_ne _ (by rcases h3 with h | h <;> rw [h] <;> decide),
        hasFence_cons_ne _ (by rcases h4 with h | h <;> rw [h] <;> decide),
        hasFence_cons_ne _ (by rcases h5 with h | h <;> rw [h] <;> decide),
        hasFence_cons_ne _ (by rcases h6 with h | h <;> rw [h] <;> decide)]
  · cases h

theorem matchFenceAt_isSome (cs : List Char) :
    (matchFenceAt cs).isSome = (fenceAt cs && hasFence (cs.drop 3)) := by
  unfold matchFenceAt
  by_cases hf : fenceAt cs
  · rw [if_pos hf, hf]
    simp only [Bool.true_and]
    rw [bodyUntilFence_isSome]
    rw [hasFence_dropWhile pyIsSpace (by decide)]
    by_cases ht : pythonTagAt (cs.drop 3)
    · rw [if_pos ht, hasFence_drop6_of_tag _ ht]
    · rw [if_neg ht]
  · rw [if_neg hf]
    simp only [Bool.not_eq_true] at hf
    rw [hf]
    rfl

theorem searchFence_isSome (cs : List Char) :
    (searchFence cs).isSome = twoFences cs := by
  induction cs with
  | nil => rfl
  | cons c rest ih =>
    rw [searchFence, twoFences]
    have hdrop : (c :: rest).drop 3 = rest.drop 2 := rfl
    rcases hm : matchFenceAt (c :: rest) with _ | body
    · have h1 : (matchFenceAt (c :: rest)).isSome = false := by rw [hm]; rfl
      rw [matchFenceAt_isSome, hdrop] at h1
      simp only [h1, Bool.false_or]
      exact ih
    · have h1 : (matchFenceAt (c :: rest)).isSome = true := by rw [hm]; rfl
      rw [matchFenceAt_isSome, hdrop] at h1
      simp [h1]

/-- C6: `extract_first_code_block` returns `none` exactly when the text
has no fenced block (no opening fence with a closing fence after it);
a successful extraction is the trimmed body of the leftmost block plus
a trailing newline; on the spec's example the trimmed result is
`print('x')`, and with two blocks the first is taken. -/
theorem C6_extract_first_code_block (text : String) :
    (extract_first_code_block text = none ↔ twoFences text.data = false) ∧
    (∀ r, extract_first_code_block text = some r →
       ∃ body, r = pyStrip body ++ "\n") ∧
    extract_first_code_block sample_markdown = some (printx_body ++ "\n") ∧
    pyStrip (printx_body ++ "\n") = printx_body ∧
    extract_first_code_block "```a```x```b```" = some "a\n" := by
  refine ⟨?_, ?_, by decide, by decide, by decide⟩
  · constructor
    · intro h
      have h1 : (searchFence text.data).isSome = false := by
        unfold extract_first_code_block at h
        rcases hs : searchFence text.data with _ | body
        · rfl
        · rw [hs] at h
          cases h
      rw [searchFence_isSome] at h1
      exact h1
    · intro h
      unfold extract_first_code_block
      rcases hs : searchFence text.data with _ | body
      · rfl
      · have h1 : (searchFence text.data).isSome = true := by rw [hs]; rfl
        rw [searchFence_isSome, h] at h1
        cases h1
  · intro r h
    unfold extract_first_code_block at h
    rcases hs : searchFence text.data with _ | body
    · rw [hs] at h
      cases h
    · rw [hs] at h
      refine ⟨body.asString, ?_⟩
      injection h with h1
      exact h1.symm

/-- C6 witness: the theorem applied at the spec's example input,
extracting the shape of the returned text there. -/
theorem C6_extract_first_code_block_witness :
    extract_first_code_block sample_markdown = some (printx_body ++ "\n") ∧
    pyStrip (printx_body ++ "\n") = printx_body ∧
    (∃ body, printx_body ++ "\n" = pyStrip body ++ "\n") := by
  have h := C6_extract_first_code_block sample_markdown
  exact ⟨h.2.2.1, h.2.2.2.1,
    h.2.1 (printx_body ++ "\n") h.2.2.1⟩

/-! ## Claim theorems: the 429 retry policy -/

theorem retry_trace_lemma (responses : ℕ → HttpResponse) (unif : ℕ → ℚ)
    (parsedate : String → Option ℚ) (now base maxD : ℚ) (maxA : ℕ) :
    ∀ k, k + 1 ≤ maxA → (∀ j, j < k → (responses j).status_code = 429) →
    post_with_429_retries responses unif parsedate now base maxD maxA =
      retryGo responses unif parsedate now base maxD maxA (maxA - k) k
        ((List.range k).map (fun j =>
          sleep_at responses unif parsedate now base maxD (j + 1))) := by
  intro k
  induction k with
  | zero =>
    intro _ _
    rfl
  | succ k ih =>
    intro h h429
    rw [ih (by omega) (fun j hj => h429 j (by omega))]
    obtain ⟨m, hm⟩ : ∃ m, maxA - k = m + 1 := ⟨maxA - (k + 1), by omega⟩
    rw [hm]
    rw [retryGo]
    rw [if_neg (by rw [h429 k (by omega)]; exact fun hne => hne rfl)]
    rw [if_neg (by omega)]
    have hm2 : m = maxA - (k + 1) := by omega
    rw [hm2, List.range_succ, List.map_append]
    rfl

/-- C2 (amended): any non-429 response is returned immediately with no
further POST or sleep; with 429s throughout, the loop gives up after
`max_attempts` total POSTs and returns the last 429 response; the sleep
before the re-issue numbered `attempt` is `d + jitter`, where `d` is the
parsed `Retry-After` — floored at 0 and capped at `max_delay` — when the
header parses, and otherwise `base_delay * 2^(attempt-1)` capped at
`max_delay`, and the jitter is a uniform draw from
`[0, min(1, 0.25 * d)]`. -/
theorem C2_retry_policy (responses : ℕ → HttpResponse) (unif : ℕ → ℚ)
    (parsedate : String → Option ℚ) (now base maxD : ℚ) (maxA : ℕ) :
    (∀ k, k < maxA → (∀ j, j < k → (responses j).status_code = 429) →
       (responses k).status_code ≠ 429 →
       post_with_429_retries responses unif parsedate now base maxD maxA =
         ⟨responses k, k + 1,
          (List.range k).map (fun j =>
            sleep_at responses unif parsedate now base maxD (j + 1))⟩) ∧
    (1 ≤ maxA → (∀ j, j < maxA → (responses j).status_code = 429) →
       post_with_429_retries responses unif parsedate now base maxD maxA =
         ⟨responses (maxA - 1), maxA,
          (List.range (maxA - 1)).map (fun j =>
            sleep_at responses unif parsedate now base maxD (j + 1))⟩) ∧
    (0 ≤ base → 0 ≤ maxD → (∀ a, 0 ≤ unif a ∧ unif a ≤ 1) →
       ∀ a,
         next_delay parsedate now base maxD a ((responses (a - 1)).retry_after) ≤
           sleep_at responses unif parsedate now base maxD a ∧
         sleep_at responses unif parsedate now base maxD a ≤
           next_delay parsedate now base maxD a ((responses (a - 1)).retry_after) +
             jitter_cap (next_delay parsedate now base maxD a
               ((responses (a - 1)).retry_after))) := by
  refine ⟨?_, ?_, ?_⟩
  · intro k hk h429 hstop
    rw [retry_trace_lemma responses unif parsedate now base maxD maxA k (by omega) h429]
    obtain ⟨m, hm⟩ : ∃ m, maxA - k = m + 1 := ⟨maxA - k - 1, by omega⟩
    rw [hm, retryGo, if_pos hstop]
  · intro h1 h429
    rw [retry_trace_lemma responses unif parsedate now base maxD maxA (maxA - 1)
      (by omega) (fun j hj => h429 j (by omega))]
    have hm : maxA - (maxA - 1) = 0 + 1 := by omega
    rw [hm, retryGo]
    rw [if_neg (by rw [h429 (maxA - 1) (by omega)]; exact fun hne => hne rfl)]
    rw [if_pos (by omega)]
    have : maxA - 1 + 1 = maxA := by omega
    rw [this]
  · intro hbase hmaxD hunif a
    have hd : 0 ≤ next_delay parsedate now base maxD a ((responses (a - 1)).retry_after) := by
      unfold next_delay
      rcases _retry_after_seconds parsedate now ((responses (a - 1)).retry_after) with _ | ra
      · exact le_min hmaxD (by positivity)
      · exact le_min hmaxD (le_max_left 0 ra)
    have hcap : 0 ≤ jitter_cap
        (next_delay parsedate now base maxD a ((responses (a - 1)).retry_after)) := by
      unfold jitter_cap
      exact le_min (by norm_num) (by positivity)
    constructor
    · simp only [sleep_at]
      have := mul_nonneg (hunif a).1 hcap
      linarith
    · simp only [sleep_at]
      have h2 : unif a * jitter_cap
          (next_delay parsedate now base maxD a ((responses (a - 1)).retry_after)) ≤
          jitter_cap (next_delay parsedate now base maxD a
            ((responses (a - 1)).retry_after)) := by
        nlinarith [(hunif a).1, (hunif a).2, hcap]
      linarith

/-- C2 witness: the theorem applied to a concrete response sequence
(a 429 then a 200) with concrete delays, discharging every hypothesis. -/
theorem C2_retry_policy_witness :
    post_with_429_retries
        (fun k => if k = 0 then ⟨429, none⟩ else ⟨200, none⟩)
        (fun _ => 0) (fun _ => none) 0 1 30 5 =
      ⟨⟨200, none⟩, 2,
       (List.range 1).map (fun j =>
         sleep_at (fun k => if k = 0 then ⟨429, none⟩ else ⟨200, none⟩)
           (fun _ => 0) (fun _ => none) 0 1 30 (j + 1))⟩ ∧
    post_with_429_retries (fun _ => ⟨429, none⟩)
        (fun _ => 0) (fun _ => none) 0 1 30 5 =
      ⟨⟨429, none⟩, 5,
       (List.range 4).map (fun j =>
         sleep_at (fun _ => ⟨429, none⟩)
           (fun _ => 0) (fun _ => none) 0 1 30 (j + 1))⟩ := by
  constructor
  · exact (C2_retry_policy
        (fun k => if k = 0 then ⟨429, none⟩ else ⟨200, none⟩)
        (fun _ => 0) (fun _ => none) 0 1 30 5).1 1 (by omega)
      (by intro j hj
          interval_cases j
          rfl)
      (by decide)
  · exact (C2_retry_policy (fun _ => ⟨429, none⟩)
        (fun _ => 0) (fun _ => none) 0 1 30 5).2.1 (by omega)
      (fun j _ => rfl)

/-- C2 counterexample: with `Retry-After: 100` and `max_delay = 30`, the
code's first sleep is `31` (the capped delay `30` plus the jitter capped
at `1`), strictly below the claim's mandated minimum delay of `100` (the
raw Retry-After value), so the claim's delay description is false as
stated. -/
theorem C2_retry_counterexample :
    (post_with_429_retries (fun _ => ⟨429, some "100"⟩) (fun _ => 1)
        (fun _ => none) 0 1 30 2).sleeps = [31] ∧
    claimed_delay (fun _ => none) 0 1 30 1 (some "100") = 100 ∧
    ¬(claimed_delay (fun _ => none) 0 1 30 1 (some "100") ≤ 31) := by
  refine ⟨?_, ?_, ?_⟩
  · show (retryGo (fun _ => ⟨429, some "100"⟩) (fun _ => 1)
        (fun _ => none) 0 1 30 2 2 0 []).sleeps = [31]
    rw [retryGo]
    rw [if_neg (by intro hne; exact hne rfl)]
    rw [if_neg (by omega)]
    rw [retryGo]
    rw [if_neg (by intro hne; exact hne rfl)]
    rw [if_pos (by omega)]
    show [] ++ [_] = [31]
    rw [List.nil_append]
    have hparse : _retry_after_seconds (fun _ => none) 0 (some "100") =
        some 100 := rfl
    have hd : next_delay (fun _ => none) 0 1 30 (0 + 1)
        ((⟨429, some "100"⟩ : HttpResponse).retry_after) = 30 := by
      unfold next_delay
      rw [show ((⟨429, some "100"⟩ : HttpResponse).retry_after) = some "100" from rfl]
      rw [hparse]
      norm_num
    rw [hd]
    unfold jitter_cap
    norm_num
  · unfold claimed_delay
    rw [show _retry_after_seconds (fun _ => none) 0 (some "100") = some 100 from rfl]
  · unfold claimed_delay
    rw [show _retry_after_seconds (fun _ => none) 0 (some "100") = some 100 from rfl]
    norm_num

/-! ## Claim theorems: the input-payload safety contract -/

theorem renderItems_ok_keys (vals : String → Option String) :
    ∀ (items : List FormatItem) (s : String),
      renderItems vals items = .ok s →
      ∀ n, FormatItem.field n ∈ items → (vals (fieldKey n)).isSome := by
  intro items
  induction items with
  | nil =>
    intro s _ n hn
    cases hn
  | cons it tl ih =>
    intro s hok n hn
    cases it with
    | lit l =>
      rw [renderItems] at hok
      rcases List.mem_cons.mp hn with he | hn2
      · exact FormatItem.noConfusion he
      · rcases htl : renderItems vals tl with e | s2
        · rw [htl] at hok
          cases hok
        · exact ih s2 htl n hn2
    | field m =>
      rw [renderItems] at hok
      rcases hv : vals (fieldKey m) with _ | v
      · rw [hv] at hok
        cases hok
      · rw [hv] at hok
        rcases htl : renderItems vals tl with e | s2
        · rw [htl] at hok
          cases hok
        · rcases List.mem_cons.mp hn with he | hn2
          · injection he with he2
            rw [he2]
            rw [hv]
            rfl
          · exact ih s2 htl n hn2

/-- C8: for every template containing a replacement field for the raw
input payload, `render_prompt` fails; in the measured trial — which
renders before any provider call — the adapter is therefore never
invoked and the trial propagates the rendering exception. -/
theorem C8_input_payload_never_sent (cfg : RunConfig) (sha : String → String)
    (template statement : String) (ts : String) (ttlt : ℚ)
    (provider : Except String CompletionResult) (child : ChildOutcome)
    (exec_elapsed : ℚ) (ms : ModelSpec) (y : ℤ) (i : ℕ)
    (h : has_input_payload_field template = true) :
    (∃ e, render_prompt sha template y statement = .error e) ∧
    (_run_measured_trial cfg
        { render := render_prompt sha template y statement, ts := ts,
          ttlt_ms := ttlt, provider := provider, child := child,
          exec_elapsed_ms := exec_elapsed } ms y i).2 = 0 ∧
    (∃ e, (_run_measured_trial cfg
        { render := render_prompt sha template y statement, ts := ts,
          ttlt_ms := ttlt, provider := provider, child := child,
          exec_elapsed_ms := exec_elapsed } ms y i).1 = .error e) := by
  have hren : ∃ e, render_prompt sha template y statement = .error e := by
    unfold has_input_payload_field at h
    rcases hp : parseFmt template.data with u | items
    · rw [hp] at h
      cases h
    · rw [hp] at h
      rw [List.any_eq_true] at h
      obtain ⟨it, hit, hkey⟩ := h
      rcases it with l | n
      · cases hkey
      · simp only [decide_eq_true_eq] at hkey
        rcases hr : renderItems (renderVals (toString y) statement) items with e | s
        · rcases e with _ | k
          · refine ⟨.formatValueError, ?_⟩
            unfold render_prompt pyFormat
            rw [hp]
            dsimp only
            rw [hr]
          · by_cases hk : k = "input_payload"
            · refine ⟨.valueErrorInputPayload, ?_⟩
              unfold render_prompt pyFormat
              rw [hp]
              dsimp only
              rw [hr]
              dsimp only
              rw [if_pos hk]
            · refine ⟨.reraisedKeyError k, ?_⟩
              unfold render_prompt pyFormat
              rw [hp]
              dsimp only
              rw [hr]
              dsimp only
              rw [if_neg hk]
        · exfalso
          have hsome := renderItems_ok_keys (renderVals (toString y) statement)
            items s hr n hit
          rw [hkey] at hsome
          have hnone : renderVals (toString y) statement "input_payload" = none := rfl
          rw [hnone] at hsome
          cases hsome
  obtain ⟨e, he⟩ := hren
  refine ⟨⟨e, he⟩, ?_, ⟨e, ?_⟩⟩
  · unfold _run_measured_trial
    rw [he]
  · unfold _run_measured_trial
    rw [he]

/-- C8 witness: the theorem applied at the template
consisting of exactly one input-payload placeholder. -/
theorem C8_input_payload_never_sent_witness :
    (∃ e, render_prompt (fun _ => "h") "{input_payload}" 5 "PS" = .error e) ∧
    (_run_measured_trial ⟨"r", "b", "1", "2"⟩
        { render := render_prompt (fun _ => "h") "{input_payload}" 5 "PS",
          ts := "T", ttlt_ms := 1, provider := .error "unused",
          child := .completed 0 "" "", exec_elapsed_ms := 0 }
        ⟨"openrouter", "m"⟩ 5 0).2 = 0 := by
  have h := C8_input_payload_never_sent ⟨"r", "b", "1", "2"⟩ (fun _ => "h")
    "{input_payload}" "PS" "T" 1 (.error "unused") (.completed 0 "" "") 0
    ⟨"openrouter", "m"⟩ 5 0 (by decide)
  exact ⟨h.1, h.2.1⟩

/-! ## Claim theorems: one record per task, sequential ordering -/

theorem trial_err (cfg : RunConfig) (inp : TrialInputs) (ms : ModelSpec)
    (y : ℤ) (i : ℕ) (e : RenderError) (h : inp.render = .error e) :
    _run_measured_trial cfg inp ms y i = (.error e, 0) := by
  unfold _run_measured_trial
  rw [h]

theorem trial_spec (cfg : RunConfig) (inp : TrialInputs) (ms : ModelSpec)
    (y : ℤ) (i : ℕ) (pr : PromptRendered) (h : inp.render = .ok pr) :
    ∃ r, (_run_measured_trial cfg inp ms y i).1 = .ok r ∧
      rec_triple r = (ms.model_spec, y, i) ∧
      r.ttlt_ms = some inp.ttlt_ms ∧ r.timestamp_utc = inp.ts := by
  unfold _run_measured_trial
  rw [h]
  dsimp only
  rcases hp : inp.provider with e | resp
  · exact ⟨_, rfl, rfl, rfl, rfl⟩
  · dsimp only
    rcases hx : extract_first_code_block resp.text with _ | code
    · exact ⟨_, rfl, rfl, rfl, rfl⟩
    · dsimp only
      rcases he : run_python_code inp.child inp.exec_elapsed_ms with e | er
      · exact ⟨_, rfl, rfl, rfl, rfl⟩
      · dsimp only
        by_cases hok : er.ok
        · rw [if_pos hok]
          exact ⟨_, rfl, rfl, rfl, rfl⟩
        · rw [if_neg hok]
          exact ⟨_, rfl, rfl, rfl, rfl⟩

theorem trial_triple_of_ok (cfg : RunConfig) (inp : TrialInputs)
    (ms : ModelSpec) (y : ℤ) (i : ℕ) (r : TrialRecord)
    (h : (_run_measured_trial cfg inp ms y i).1 = .ok r) :
    rec_triple r = (ms.model_spec, y, i) := by
  rcases hren : inp.render with e | pr
  · rw [trial_err cfg inp ms y i e hren] at h
    cases h
  · obtain ⟨r2, hr2, htr, _, _⟩ := trial_spec cfg inp ms y i pr hren
    rw [h] at hr2
    injection hr2 with hr3
    rw [hr3]
    exact htr

/-- The per-task properties each sequential record satisfies. -/
def record_matches_task (inputs : ModelSpec × ℤ × ℕ → TrialInputs)
    (r : TrialRecord) (t : ModelSpec × ℤ × ℕ) : Prop :=
  rec_triple r = task_triple t ∧
  r.ttlt_ms = some (inputs t).ttlt_ms ∧
  r.timestamp_utc = (inputs t).ts

theorem run_seq_spec (cfg : RunConfig)
    (inputs : ModelSpec × ℤ × ℕ → TrialInputs) :
    ∀ ts : List (ModelSpec × ℤ × ℕ),
      (∀ t ∈ ts, ((inputs t).render).isOk) →
      ∃ recs,
        ts.mapM (fun t =>
          (_run_measured_trial cfg (inputs t) t.1 t.2.1 t.2.2).1) = .ok recs ∧
        List.Forall₂ (record_matches_task inputs) recs ts := by
  intro ts
  induction ts with
  | nil =>
    intro _
    exact ⟨[], rfl, List.Forall₂.nil⟩
  | cons t tl ih =>
    intro h
    have hok : ((inputs t).render).isOk := h t (List.mem_cons_self t tl)
    rcases hren : (inputs t).render with e | pr
    · rw [hren] at hok
      cases hok
    · obtain ⟨r, hr, htr, httlt, hts⟩ :=
        trial_spec cfg (inputs t) t.1 t.2.1 t.2.2 pr hren
      obtain ⟨recs, hrecs, hall⟩ := ih (fun u hu => h u (List.mem_cons_of_mem t hu))
      refine ⟨r :: recs, ?_, List.Forall₂.cons ⟨htr, httlt, hts⟩ hall⟩
      rw [List.mapM_cons, hr, hrecs]
      rfl

theorem forall2_map_triples (inputs : ModelSpec × ℤ × ℕ → TrialInputs) :
    ∀ (recs : List TrialRecord) (ts : List (ModelSpec × ℤ × ℕ)),
      List.Forall₂ (record_matches_task inputs) recs ts →
      recs.map rec_triple = ts.map task_triple := by
  intro recs ts h
  induction h with
  | nil => rfl
  | cons hpair _ ih =>
    rw [List.map_cons, List.map_cons, ih, hpair.1]

theorem inner_task_len (m : ModelSpec) (years : List ℤ) (runs : ℕ) :
    (years.flatMap (fun y =>
      (List.range runs).map (fun i => (m, y, i)))).length =
      years.length * runs := by
  induction years with
  | nil => simp
  | cons y ys ih =>
    rw [List.flatMap_cons, List.length_append, ih, List.length_map,
        List.length_range, List.length_cons]
    ring

theorem length_mkTasks (models : List ModelSpec) (years : List ℤ) (runs : ℕ) :
    (mkTasks models years runs).length =
      models.length * years.length * runs := by
  unfold mkTasks
  induction models with
  | nil => simp
  | cons m ms ih =>
    rw [List.flatMap_cons, List.length_append, ih, inner_task_len,
        List.length_cons]
    ring

/-- C1 counterexample: the claim fails as stated at concurrency 1.
`render_prompt` is called outside the trial's `try` block and the
sequential loop has no per-task handler, so a rendering exception —
reachable, e.g. a template holding an `input_payload` placeholder —
propagates out of the measured phase: the run aborts, no record list is
collected, and the single submitted task yields no `TrialRecord`. -/
theorem C1_render_exception_counterexample :
    run_measured_seq ⟨"r", "b", "1", "2"⟩
        (fun _ => { render := render_prompt (fun _ => "h") "{input_payload}" 3 "PS",
                    ts := "T", ttlt_ms := 1, provider := .error "boom",
                    child := .completed 0 "" "", exec_elapsed_ms := 0 })
        [⟨"openrouter", "m"⟩] [3] 1 = .error .valueErrorInputPayload ∧
    (∀ recs : List TrialRecord,
       run_measured_seq ⟨"r", "b", "1", "2"⟩
         (fun _ => { render := render_prompt (fun _ => "h") "{input_payload}" 3 "PS",
                     ts := "T", ttlt_ms := 1, provider := .error "boom",
                     child := .completed 0 "" "", exec_elapsed_ms := 0 })
         [⟨"openrouter", "m"⟩] [3] 1 ≠ .ok recs) ∧
    (mkTasks [⟨"openrouter", "m"⟩] [3] 1).length = 1 := by
  have h : run_measured_seq ⟨"r", "b", "1", "2"⟩
      (fun _ => { render := render_prompt (fun _ => "h") "{input_payload}" 3 "PS",
                  ts := "T", ttlt_ms := 1, provider := .error "boom",
                  child := .completed 0 "" "", exec_elapsed_ms := 0 })
      [⟨"openrouter", "m"⟩] [3] 1 = .error .valueErrorInputPayload := by rfl
  refine ⟨h, ?_, by decide⟩
  intro recs hok
  rw [h] at hok
  cases hok

/-- C1 (amended): in the measured phase, every submitted task yields
exactly one record, with one carve-out the source makes: prompt
rendering sits outside the per-task exception handler.  Sequentially
(concurrency 1), when each task's prompt renders — any later stage
free to fail — the run returns a record list whose identity triples
equal the task list's, of length `models * years * runs_per_setting`
(a rendering exception instead propagates and aborts the run, as the
counterexample shows).  Concurrently, for any completion order (a
permutation of the task list, every failure included — a raising
future, rendering included, yields a `runner_error` record), the
record list has the same length and its identity triples are a
permutation of the task list's. -/
theorem C1_one_record_per_task (cfg : RunConfig)
    (inputs : ModelSpec × ℤ × ℕ → TrialInputs)
    (exn_ts : ModelSpec × ℤ × ℕ → String) (exn_msg : RenderError → String)
    (models : List ModelSpec) (years : List ℤ) (runs : ℕ)
    (order : List (ModelSpec × ℤ × ℕ)) :
    ((∀ t ∈ mkTasks models years runs, ((inputs t).render).isOk) →
       ∃ recs, run_measured_seq cfg inputs models years runs = .ok recs ∧
         recs.map rec_triple = (mkTasks models years runs).map task_triple ∧
         recs.length = models.length * years.length * runs) ∧
    (order.Perm (mkTasks models years runs) →
       (run_measured_conc cfg inputs exn_ts exn_msg order).length =
         models.length * years.length * runs ∧
       ((run_measured_conc cfg inputs exn_ts exn_msg order).map rec_triple).Perm
         ((mkTasks models years runs).map task_triple)) := by
  constructor
  · intro h
    obtain ⟨recs, hrecs, hall⟩ := run_seq_spec cfg inputs (mkTasks models years runs) h
    refine ⟨recs, hrecs, forall2_map_triples inputs recs _ hall, ?_⟩
    have hlen := hall.length_eq
    rw [hlen, length_mkTasks]
  · intro hperm
    have hmap : (run_measured_conc cfg inputs exn_ts exn_msg order).map rec_triple =
        order.map task_triple := by
      unfold run_measured_conc
      rw [List.map_map]
      apply List.map_congr_left
      intro t _
      show rec_triple (match (_run_measured_trial cfg (inputs t) t.1 t.2.1 t.2.2).1 with
        | .ok r => r
        | .error e => runner_error_record cfg t.1 t.2.1 t.2.2 (exn_ts t) (exn_msg e)) =
        task_triple t
      rcases htr : (_run_measured_trial cfg (inputs t) t.1 t.2.1 t.2.2).1 with e | r
      · rfl
      · exact trial_triple_of_ok cfg (inputs t) t.1 t.2.1 t.2.2 r htr
    constructor
    · have h1 : (run_measured_conc cfg inputs exn_ts exn_msg order).length =
          order.length := by
        unfold run_measured_conc
        rw [List.length_map]
      rw [h1, hperm.length_eq, length_mkTasks]
    · rw [hmap]
      exact hperm.map task_triple

/-- C1 witness: the theorem applied to one model, two years values and
one run per setting, both sequentially and with a reversed completion
order. -/
theorem C1_one_record_per_task_witness :
    (∃ recs, run_measured_seq ⟨"r", "b", "1", "2"⟩
        (fun _ => { render := .ok ⟨"s", "u", "h"⟩, ts := "T", ttlt_ms := 1,
                    provider := .error "boom", child := .completed 0 "" "",
                    exec_elapsed_ms := 0 })
        [⟨"openrouter", "m"⟩] [3, 4] 1 = .ok recs ∧
        recs.length = 1 * 2 * 1) ∧
    (run_measured_conc ⟨"r", "b", "1", "2"⟩
        (fun _ => { render := .ok ⟨"s", "u", "h"⟩, ts := "T", ttlt_ms := 1,
                    provider := .error "boom", child := .completed 0 "" "",
                    exec_elapsed_ms := 0 })
        (fun _ => "T2") (fun _ => "m")
        ((mkTasks [⟨"openrouter", "m"⟩] [3, 4] 1).reverse)).length = 1 * 2 * 1 := by
  have h := C1_one_record_per_task ⟨"r", "b", "1", "2"⟩
    (fun _ => { render := .ok ⟨"s", "u", "h"⟩, ts := "T", ttlt_ms := 1,
                provider := .error "boom", child := .completed 0 "" "",
                exec_elapsed_ms := 0 })
    (fun _ => "T2") (fun _ => "m") [⟨"openrouter", "m"⟩] [3, 4] 1
    ((mkTasks [⟨"openrouter", "m"⟩] [3, 4] 1).reverse)
  refine ⟨?_, (h.2 (List.reverse_perm _)).1⟩
  obtain ⟨recs, hrecs, _, hlen⟩ := h.1 (fun t _ => rfl)
  exact ⟨recs, hrecs, hlen⟩

/-- C9: at concurrency 1 with one model, one years value,
`runs_per_setting = 2` and no warmup, the driver completes with exactly
2 records, in submission order `(run 0, run 1)`, each carrying its
task's timestamp and a non-null `ttlt_ms`, and appends exactly 2 lines
to the (initially empty) JSONL file. -/
theorem forall2_ttlt_some (inputs : ModelSpec × ℤ × ℕ → TrialInputs) :
    ∀ (recs : List TrialRecord) (ts : List (ModelSpec × ℤ × ℕ)),
      List.Forall₂ (record_matches_task inputs) recs ts →
      ∀ r ∈ recs, r.ttlt_ms.isSome := by
  intro recs ts h
  induction h with
  | nil =>
    intro r hr
    cases hr
  | cons hpair _ ih =>
    intro r hr
    rcases List.mem_cons.mp hr with he | hm
    · rw [he, hpair.2.1]
      rfl
    · exact ih r hm

theorem C9_sequential_two_records (cfg : RunConfig)
    (inputs : ModelSpec × ℤ × ℕ → TrialInputs)
    (serialize : TrialRecord → String) (m : ModelSpec) (y : ℤ)
    (h : ∀ t ∈ mkTasks [m] [y] 2, ((inputs t).render).isOk) :
    ∃ out, run_benchmark cfg inputs serialize [m] [y] 2 0 [] = .ok out ∧
      out.records.length = 2 ∧
      out.records.map rec_triple = [(m.model_spec, y, 0), (m.model_spec, y, 1)] ∧
      (∀ r ∈ out.records, r.ttlt_ms.isSome) ∧
      List.Forall₂ (fun (r : TrialRecord) t => r.timestamp_utc = (inputs t).ts)
        out.records (mkTasks [m] [y] 2) ∧
      out.file_lines.length = 2 ∧
      out.records_written = 2 := by
  obtain ⟨recs, hrecs, hall⟩ := run_seq_spec cfg inputs (mkTasks [m] [y] 2) h
  have hlen : recs.length = 2 := by
    have := hall.length_eq
    rw [this]
    rfl
  refine ⟨{ records := recs,
            file_lines := [] ++ recs.map serialize,
            records_written := recs.length }, ?_, hlen, ?_, ?_, ?_, ?_, hlen⟩
  · unfold run_benchmark run_measured_seq
    rw [hrecs]
    rfl
  · rw [forall2_map_triples inputs recs _ hall]
    rfl
  · exact forall2_ttlt_some inputs recs _ hall
  · exact List.Forall₂.imp (fun r t hp => hp.2.2) hall
  · rw [List.nil_append, List.length_map, hlen]

/-- C9 witness: the theorem applied to a concrete model, years value
and oracle bundle, with the rendering hypothesis discharged there. -/
theorem C9_sequential_two_records_witness :
    ∃ out, run_benchmark ⟨"r", "b", "1", "2"⟩
        (fun _ => { render := .ok ⟨"s", "u", "h"⟩, ts := "T", ttlt_ms := 1,
                    provider := .error "boom", child := .completed 0 "" "",
                    exec_elapsed_ms := 0 })
        (fun _ => "line") [⟨"openrouter", "m"⟩] [3] 2 0 [] = .ok out ∧
      out.records.length = 2 ∧
      out.records.map rec_triple = [("openrouter:m", 3, 0), ("openrouter:m", 3, 1)] ∧
      out.file_lines.length = 2 ∧
      out.records_written = 2 := by
  obtain ⟨out, hout, hlen, htriples, _, _, hfile, hwritten⟩ :=
    C9_sequential_two_records ⟨"r", "b", "1", "2"⟩
      (fun _ => { render := .ok ⟨"s", "u", "h"⟩, ts := "T", ttlt_ms := 1,
                  provider := .error "boom", child := .completed 0 "" "",
                  exec_elapsed_ms := 0 })
      (fun _ => "line") ⟨"openrouter", "m"⟩ 3 (fun t _ => rfl)
  exact ⟨out, hout, hlen, htriples, hfile, hwritten⟩

end ExperienceBench
